import Mathlib

/-!
Verification of the event-dispatch core of the tiger-agents-for-work
repository.

The Python source (src/tiger_agent/harness.py, commands.py, utils.py,
types.py) is shallowly embedded: each coroutine becomes a pure Lean
function that takes the outcomes of its database and library calls as
explicit arguments (the DB is external state, so its answers are passed
in), and returns the value produced by the Python function together with
the ordered list of observable actions it performed (acknowledgements,
database statements, log records, responses, processor invocations).
Exceptions are modelled with Except.
-/

/-- Kinds of Python exception relevant to the embedded code paths. -/
inductive PyErr
  | typeError
  | assertionError
  | valueError
  | attributeError
  | dbError
deriving DecidableEq, Repr

/-- Opaque runtime values passed positionally to a dataclass constructor:
the Slack app object, the connection pool object, and strings such as the
bot token. -/
inductive PyVal
  | appV
  | poolV
  | strV (s : String)
deriving DecidableEq, Repr

/-- Parsed representation of a claimed event (tiger_agent/types.py, class
Event). Only the primary key is inspected by the harness itself, so the
embedding keeps the id and leaves the remaining validated fields behind
the parse oracle. -/
structure EventM where
  id : Int
deriving DecidableEq, Repr

/-- One row fetched from the database with a dict row factory: an id
column that may be NULL plus the remaining columns, opaque here. Whether
the row parses into an Event is given by a separate validation oracle
standing for pydantic. -/
structure Row where
  id : Option Int
  payload : String
deriving DecidableEq, Repr

/-- Observable actions performed by the embedded harness code, in program
order. -/
inductive Act
  | ack
  | triggerPut
  | logError
  | dbInsertEvent
  | dbSelectClaim
  | dbDeleteUnprocessed (id : Int)
  | dbDeleteProcessed (id : Int)
  | dbSelectHist (id : Int)
  | dbSelectAdmin
  | dbRouterMutation
  | invokeProcessor
  | respondDeleteEphemeral
  | respondConfirm
  | routerDispatch
deriving DecidableEq, Repr

/-- Whether an action writes to the database. The claim query, the
history lookup and the admin-gate EXISTS query are reads; insert and
delete statements (and whatever a routed subcommand executes) are
mutations. -/
def isDbMutation : Act → Bool
  | Act.dbInsertEvent => true
  | Act.dbDeleteUnprocessed _ => true
  | Act.dbDeleteProcessed _ => true
  | Act.dbRouterMutation => true
  | _ => false

/-- Field list of the HarnessContext dataclass exactly as declared in
src/tiger_agent/types.py lines 108-121: only app and pool. -/
def harnessContextFields : List String := ["app", "pool"]

/-- A Python dataclass-generated constructor called with positional
arguments: it binds one argument per declared field and raises TypeError
on any arity mismatch. -/
def dataclassCall (fields : List String) (args : List PyVal) :
    Except PyErr (List (String × PyVal)) :=
  if args.length = fields.length then Except.ok (fields.zip args)
  else Except.error PyErr.typeError

/-- Embedding of EventHarness._make_harness_context (harness.py lines
345-351): it calls HarnessContext(self._app, self._pool,
self._slack_bot_token) with three positional arguments. -/
def make_harness_context (tok : String) :
    Except PyErr (List (String × PyVal)) :=
  dataclassCall harnessContextFields [PyVal.appV, PyVal.poolV, PyVal.strV tok]

/-- Embedding of EventHarness._on_event (harness.py lines 214-234). The
argument is the outcome of the awaited _insert_event call; the body has
no exception handler, so a database error propagates before ack() and
the trigger put are reached. -/
def on_event (insertOutcome : Except PyErr Unit) :
    List Act × Except PyErr Unit :=
  match insertOutcome with
  | Except.error e => ([Act.dbInsertEvent], Except.error e)
  | Except.ok _ =>
      ([Act.dbInsertEvent, Act.ack, Act.triggerPut], Except.ok ())

/-- Embedding of EventHarness._claim_event (harness.py lines 236-274).
The fetch argument is the row returned by agent.claim_event (none when
the queue is empty); validate stands for pydantic validation of
Event(**row). An all-NULL row trips the assert (AssertionError, not
caught); a row with an id whose payload fails validation is logged and
deleted with _processed=>false, and none is returned. -/
def claim_event (fetch : Option Row) (validate : Row → Option EventM) :
    Except PyErr (Option EventM) × List Act :=
  match fetch with
  | none => (Except.ok none, [Act.dbSelectClaim])
  | some row =>
    match row.id with
    | none => (Except.error PyErr.assertionError, [Act.dbSelectClaim])
    | some i =>
      match validate row with
      | some ev => (Except.ok (some ev), [Act.dbSelectClaim])
      | none =>
          (Except.ok none,
           [Act.dbSelectClaim, Act.logError, Act.dbDeleteUnprocessed i])

/-- Embedding of EventHarness.get_event_hist (harness.py lines 293-325).
The fetch argument is the row returned by the SELECT on agent.event_hist
for the given id; validate stands for pydantic validation. Both the
missing-row case and the validation-failure case return none; the only
statement issued is the SELECT, plus a log record on validation failure. -/
def get_event_hist (eventId : Int) (fetch : Option Row)
    (validate : Row → Option EventM) : Option EventM × List Act :=
  match fetch with
  | none => (none, [Act.dbSelectHist eventId])
  | some row =>
    match validate row with
    | some ev => (some ev, [Act.dbSelectHist eventId])
    | none => (none, [Act.dbSelectHist eventId, Act.logError])

/-- Embedding of EventHarness._process_event (harness.py lines 353-376).
The try block first evaluates _make_harness_context(); processor is the
user event processor; ev is the argument (the proactive-prompt path can
pass None). In the except handler the expression event.id is evaluated
while building the log record, so with event None an AttributeError
escapes. -/
def process_event (tok : String)
    (processor : Option EventM → Except PyErr Unit) (ev : Option EventM) :
    Except PyErr Bool × List Act :=
  match make_harness_context tok with
  | Except.error _ =>
    match ev with
    | some _ => (Except.ok false, [Act.logError])
    | none => (Except.error PyErr.attributeError, [])
  | Except.ok _ =>
    match processor ev with
    | Except.ok _ =>
      match ev with
      | some e =>
          (Except.ok true, [Act.invokeProcessor, Act.dbDeleteProcessed e.id])
      | none => (Except.error PyErr.attributeError, [Act.invokeProcessor])
    | Except.error _ =>
      match ev with
      | some _ => (Except.ok false, [Act.invokeProcessor, Act.logError])
      | none => (Except.error PyErr.attributeError, [Act.invokeProcessor])

/-- Exit test of one iteration of the batch loop in
EventHarness._process_events (harness.py lines 386-394): the iteration
is the last one when claim_event found nothing or when _process_event
reported failure for the claimed event. claims gives the event claimed
at each iteration index and dispatch the boolean result of
_process_event on it. -/
def stop_iteration (claims : Nat → Option EventM) (dispatch : EventM → Bool)
    (i : Nat) : Bool :=
  match claims i with
  | none => true
  | some e => !(dispatch e)

/-- Body of the for-loop of EventHarness._process_events, counting the
number of loop iterations executed: claim, return on empty, dispatch,
return on failure, else continue with the remaining fuel. -/
def processEventsLoop (claims : Nat → Option EventM)
    (dispatch : EventM → Bool) (i : Nat) : Nat → Nat
  | 0 => 0
  | fuel + 1 =>
    match claims i with
    | none => 1
    | some e =>
      if dispatch e then 1 + processEventsLoop claims dispatch (i + 1) fuel
      else 1

/-- Embedding of EventHarness._process_events (harness.py lines
378-394): the loop body runs with range(20). The result is the number of
claim-and-dispatch iterations that were executed. -/
def process_events_iterations (claims : Nat → Option EventM)
    (dispatch : EventM → Bool) : Nat :=
  processEventsLoop claims dispatch 0 20

/-- Index of the first iteration among 0..19 whose exit test fires, if
any. -/
def firstStopIndex (claims : Nat → Option EventM)
    (dispatch : EventM → Bool) : Option Nat :=
  (List.range 20).find? (stop_iteration claims dispatch)

/-- Embedding of EventHarness._calc_worker_sleep (harness.py lines
396-408): the base sleep plus a jitter drawn by random.randint between
the configured bounds; the draw is passed in explicitly. -/
def calc_worker_sleep (workerSleepSeconds jitter : Int) : Int :=
  workerSleepSeconds + jitter

/-- Embedding of the three assert statements of EventHarness.__init__
(harness.py lines 163-165): the constructor accepts a configuration
exactly when worker_sleep_seconds > 0, worker_sleep_seconds -
worker_min_jitter_seconds > 0 and worker_max_jitter_seconds >
worker_min_jitter_seconds. -/
def harnessInitAccepts (workerSleepSeconds minJitter maxJitter : Int) : Bool :=
  decide (workerSleepSeconds > 0) &&
  decide (workerSleepSeconds - minJitter > 0) &&
  decide (maxJitter > minJitter)

/-- Python range(a, b) as a list of integers. -/
def pyRange (a b : Int) : List Int :=
  List.map (fun k : Nat => a + (k : Int)) (List.range (b - a).toNat)

/-- Contract of random.sample(population, k) from the Python standard
library: any successful result is a list of k pairwise-distinct elements
of the population; when k exceeds the population size (or is negative)
the call raises ValueError and no result exists. -/
def sampleOk (pop : List Int) (k : Nat) (s : List Int) : Prop :=
  s.length = k ∧ s.Nodup ∧ ∀ x ∈ s, x ∈ pop

instance (pop : List Int) (k : Nat) (s : List Int) :
    Decidable (sampleOk pop k s) := by
  unfold sampleOk
  infer_instance

/-- Embedding of EventHarness._worker_args (harness.py lines 450-470):
initial_sleeps is the literal [0] extended with the random.sample result
(passed in explicitly), and the returned list enumerates it into
(worker_id, initial_sleep) pairs. -/
def worker_args (sampled : List Int) : List (Nat × Int) :=
  ((0 : Int) :: sampled).enum

/-- Leading and trailing whitespace removal on a character list, the
strip step of Python int(str). -/
def pyStrip (cs : List Char) : List Char :=
  ((cs.dropWhile Char.isWhitespace).reverse.dropWhile Char.isWhitespace).reverse

/-- Python int(str): strip surrounding whitespace, optional single sign,
then a nonempty run of decimal digits (digit-group underscores are not
modelled); anything else raises ValueError, modelled as none. -/
def pyIntDigits : List Char → Option Nat
  | [] => none
  | cs =>
    if cs.all Char.isDigit then
      some (cs.foldl (fun a c => a * 10 + (c.toNat - 48)) 0)
    else none

/-- Python int applied to a string value, returning none where the call
raises ValueError. -/
def pyInt (s : String) : Option Int :=
  match pyStrip s.toList with
  | [] => none
  | '-' :: cs => (pyIntDigits cs).map (fun n => -(n : Int))
  | '+' :: cs => (pyIntDigits cs).map (fun n => (n : Int))
  | cs => (pyIntDigits cs).map (fun n => (n : Int))

/-- Action id constant from harness.py line 45. -/
def CONFIRM_PROACTIVE_PROMPT : String := "confirm_proactive_prompt"

/-- Action id constant from harness.py line 46. -/
def REJECT_PROACTIVE_PROMPT : String := "reject_proactive_prompt"

/-- One element of the actions array of a Slack block-action payload:
the fields read by the handler, each possibly absent. -/
structure BAction where
  action_id : Option String
  value : Option String
deriving DecidableEq, Repr

/-- The block-action payload body as read by handle_proactive_prompt:
only the actions key is consulted; none covers both a missing key and a
non-sequence value. -/
structure ABody where
  actions : Option (List BAction)
deriving DecidableEq, Repr

/-- Embedding of the handle_proactive_prompt closure (harness.py lines
516-572). fetchHist gives the agent.event_hist row for an id and
validate stands for pydantic validation inside get_event_hist. The
handler acks, validates the actions array, routes a reject action to an
ephemeral delete, parses the value as an integer, looks up the history
row, replaces the ephemeral message with a confirmation, and finally
calls _process_event on the lookup result, which may be None. -/
def handle_proactive_prompt (tok : String)
    (processor : Option EventM → Except PyErr Unit)
    (fetchHist : Int → Option Row) (validate : Row → Option EventM)
    (body : ABody) : Except PyErr Unit × List Act :=
  match body.actions with
  | none => (Except.ok (), [Act.ack, Act.logError])
  | some actions =>
    match actions with
    | [action] =>
      let aid := action.action_id.getD REJECT_PROACTIVE_PROMPT
      if aid = REJECT_PROACTIVE_PROMPT then
        (Except.ok (), [Act.ack, Act.respondDeleteEphemeral])
      else
        match action.value with
        | none => (Except.ok (), [Act.ack, Act.logError])
        | some v =>
          match pyInt v with
          | none => (Except.ok (), [Act.ack, Act.logError])
          | some i =>
            let lookup := get_event_hist i (fetchHist i) validate
            let dispatched := process_event tok processor lookup.1
            (dispatched.1.map (fun _ => ()),
             Act.ack :: lookup.2 ++ [Act.respondConfirm] ++ dispatched.2)
    | _ => (Except.ok (), [Act.ack, Act.logError])

/-- Confirm-path payloads that the claim calls unknown or malformed and
that the handler actually drops before reaching the history lookup: a
missing or non-singleton actions array, or a single non-reject action
whose value is missing or fails integer parsing. -/
def malformedConfirmPayload (body : ABody) : Bool :=
  match body.actions with
  | none => true
  | some [a] =>
    if a.action_id.getD REJECT_PROACTIVE_PROMPT = REJECT_PROACTIVE_PROMPT then
      false
    else
      match a.value with
      | none => true
      | some v => (pyInt v).isNone
  | some _ => true

/-- Partial model of the slash-command object (tiger_agent/types.py,
class SlackCommand): the fields consulted by handle_command. -/
structure SlackCommandM where
  user_id : Option String
  text : Option String
deriving DecidableEq, Repr

/-- Embedding of user_is_admin (utils.py lines 172-180): the EXISTS
query over agent.admin_users, which is false for a NULL user_id. admins
is the user_id column of the table. -/
def user_is_admin (admins : List String) (uid : Option String) : Bool :=
  match uid with
  | none => false
  | some u => decide (u ∈ admins)

/-- Response returned by handle_command to non-admin callers
(commands.py line 267). -/
def ADMIN_ONLY_MSG : String := "Slash commands can only be used by admins."

/-- Embedding of handle_command (commands.py lines 265-270): run the
admin-gate query; non-admins get the fixed refusal and nothing else
happens; admins have the command text routed through the command tree,
whose reply and database statements are abstracted by routerResponse and
routerOps. -/
def handle_command (admins : List String)
    (routerResponse : Option String → String)
    (routerOps : Option String → List Act) (cmd : SlackCommandM) :
    String × List Act :=
  if user_is_admin admins cmd.user_id then
    (routerResponse cmd.text,
     Act.dbSelectAdmin :: Act.routerDispatch :: routerOps cmd.text)
  else
    (ADMIN_ONLY_MSG, [Act.dbSelectAdmin])

/-- Concrete event processor that always returns normally, used for the
C6 scenario. -/
def c6Processor : Option EventM → Except PyErr Unit := fun _ => Except.ok ()

/-- Concrete history table with no rows, used for the C6 scenario. -/
def c6NoHist : Int → Option Row := fun _ => none

/-- Concrete validation oracle rejecting every row, used for the C6
scenario. -/
def c6Validate : Row → Option EventM := fun _ => none

/-- Concrete confirm button payload carrying value 42, used for the C6
scenario. -/
def c6Body : ABody := ⟨some [⟨some CONFIRM_PROACTIVE_PROMPT, some "42"⟩]⟩

/-- Concrete router reply, used for the C9 witness. -/
def c9Response : Option String → String := fun _ => "routed"

/-- Concrete router statement list, used for the C9 witness. -/
def c9Ops : Option String → List Act := fun _ => [Act.dbRouterMutation]

/-- Concrete slash command from a non-admin user, used for the C9
witness. -/
def c9Command : SlackCommandM := ⟨some "U2", some "users admins list"⟩

/-- Concrete validation oracle rejecting every row, used for the C10
witness. -/
def c10Validate : Row → Option EventM := fun _ => none

/-! General lemmas about the embedded definitions. -/

theorem processEventsLoop_succ (claims : Nat → Option EventM)
    (dispatch : EventM → Bool) (i n : Nat) :
    processEventsLoop claims dispatch i (n + 1) =
      if stop_iteration claims dispatch i then 1
      else 1 + processEventsLoop claims dispatch (i + 1) n := by
  cases hc : claims i with
  | none => simp [processEventsLoop, stop_iteration, hc]
  | some e =>
    cases hd : dispatch e with
    | true => simp [processEventsLoop, stop_iteration, hc, hd]
    | false => simp [processEventsLoop, stop_iteration, hc, hd]

theorem processEventsLoop_le (claims : Nat → Option EventM)
    (dispatch : EventM → Bool) :
    ∀ (fuel i : Nat), processEventsLoop claims dispatch i fuel ≤ fuel := by
  intro fuel
  induction fuel with
  | zero => intro i; simp [processEventsLoop]
  | succ n ih =>
    intro i
    rw [processEventsLoop_succ]
    by_cases h : stop_iteration claims dispatch i
    · simp [h]
    · rw [if_neg h]
      have := ih (i + 1)
      omega

theorem processEventsLoop_eq_find (claims : Nat → Option EventM)
    (dispatch : EventM → Bool) :
    ∀ (fuel i : Nat),
      processEventsLoop claims dispatch i fuel =
        (((List.range fuel).find?
            (fun j => stop_iteration claims dispatch (i + j))).map
          (fun j => j + 1)).getD fuel := by
  intro fuel
  induction fuel with
  | zero => intro i; simp [processEventsLoop]
  | succ n ih =>
    intro i
    rw [processEventsLoop_succ, List.range_succ_eq_map, List.find?_cons]
    by_cases h0 : stop_iteration claims dispatch i
    · have h0t : stop_iteration claims dispatch (i + 0) = true := by
        rwa [Nat.add_zero]
      rw [h0t]
      simp [h0]
    · have h0f : stop_iteration claims dispatch (i + 0) = false := by
        rw [Nat.add_zero]
        exact eq_false_of_ne_true h0
      rw [h0f, if_neg h0, List.find?_map]
      have hfun :
          ((fun j => stop_iteration claims dispatch (i + j)) ∘ Nat.succ) =
            (fun j => stop_iteration claims dispatch (i + 1 + j)) := by
        funext j
        simp only [Function.comp]
        congr 1
        omega
      rw [hfun, ih (i + 1)]
      cases hq : (List.range n).find?
          (fun j => stop_iteration claims dispatch (i + 1 + j)) with
      | none => simp; omega
      | some j => simp; omega

theorem mem_pyRangeAux (n : Nat) (a x : Int) :
    x ∈ List.map (fun k : Nat => a + (k : Int)) (List.range n) ↔
      a ≤ x ∧ x < a + n := by
  induction n with
  | zero => simp
  | succ m ih =>
    rw [List.range_succ, List.map_append, List.mem_append, ih]
    simp only [List.map_cons, List.map_nil, List.mem_singleton]
    constructor
    · rintro (⟨h1, h2⟩ | rfl) <;> constructor <;> omega
    · rintro ⟨h1, h2⟩
      by_cases hx : x < a + m
      · exact Or.inl ⟨h1, hx⟩
      · right
        omega

theorem mem_pyRange (a b x : Int) : x ∈ pyRange a b ↔ a ≤ x ∧ x < b := by
  rw [pyRange, mem_pyRangeAux]
  omega

/-! Claim theorems. -/

/-- C1: the claim says every harness context handed to the user handler
or the command router is successfully constructed with the three fields
app, pool and bot_token. In the source the HarnessContext dataclass
declares only app and pool, while _make_harness_context passes three
positional arguments, so the constructor call raises TypeError on every
invocation and no context is ever produced. -/
theorem C1_make_harness_context_raises :
    make_harness_context "xoxb-bot-token" = Except.error PyErr.typeError := by
  rfl

/-- C2, counterexample: at the concrete ingress execution in which
_insert_event raises a database error, _on_event performs only the
insert attempt, the acknowledgement callback is never invoked, and the
exception propagates to the caller, contradicting the claim that the
upstream is always acknowledged. -/
theorem C2_counterexample :
    on_event (Except.error PyErr.dbError) =
      ([Act.dbInsertEvent], Except.error PyErr.dbError) ∧
    ((on_event (Except.error PyErr.dbError)).1.contains Act.ack) = false := by
  exact ⟨rfl, rfl⟩

/-- C2, amended: _on_event acknowledges the upstream only after a
successful insert; when _insert_event raises, the exception propagates
out of the handler before ack() is reached, so the event is neither
acknowledged nor triggered. -/
theorem C2_ack_only_after_successful_insert :
    ∀ e : PyErr,
      on_event (Except.ok ()) =
        ([Act.dbInsertEvent, Act.ack, Act.triggerPut], Except.ok ()) ∧
      on_event (Except.error e) = ([Act.dbInsertEvent], Except.error e) ∧
      ((on_event (Except.error e)).1.contains Act.ack) = false := by
  intro e
  exact ⟨rfl, rfl, rfl⟩

/-- C3: for every row returned by the claim query that carries an id and
whose payload fails Event validation, _claim_event logs, immediately
issues delete_event(id, _processed=>false) for that id, returns None,
and never reaches the user handler. -/
theorem C3_poison_row_deleted_unprocessed :
    ∀ (row : Row) (i : Int) (validate : Row → Option EventM),
      row.id = some i → validate row = none →
      claim_event (some row) validate =
        (Except.ok none,
         [Act.dbSelectClaim, Act.logError, Act.dbDeleteUnprocessed i]) ∧
      ((claim_event (some row) validate).2.contains Act.invokeProcessor) =
        false := by
  intro row i validate hid hv
  have h : claim_event (some row) validate =
      (Except.ok none,
       [Act.dbSelectClaim, Act.logError, Act.dbDeleteUnprocessed i]) := by
    simp [claim_event, hid, hv]
  refine ⟨h, ?_⟩
  rw [h]
  rfl

/-- Witness for C3 at a concrete poison row. -/
theorem C3_witness :
    claim_event (some ⟨some 7, "bad payload"⟩) (fun _ => none) =
      (Except.ok none,
       [Act.dbSelectClaim, Act.logError, Act.dbDeleteUnprocessed 7]) :=
  (C3_poison_row_deleted_unprocessed ⟨some 7, "bad payload"⟩ 7
    (fun _ => none) rfl rfl).1

/-- C4: the claim says _process_event invokes the event processor,
deletes the event and returns True exactly when the processor returns
without raising. In the source the try block first calls
_make_harness_context, which raises TypeError, so even with a processor
that always returns normally the processor is never invoked, no
delete_event is issued, and _process_event returns False after logging,
for every claimed event. -/
theorem C4_process_event_never_succeeds :
    process_event "xoxb-bot-token" (fun _ => Except.ok ())
        (some ⟨5⟩) = (Except.ok false, [Act.logError]) ∧
    ((process_event "xoxb-bot-token" (fun _ => Except.ok ())
        (some ⟨5⟩)).2.contains Act.invokeProcessor) = false ∧
    ((process_event "xoxb-bot-token" (fun _ => Except.ok ())
        (some ⟨5⟩)).2.contains (Act.dbDeleteProcessed 5)) = false := by
  exact ⟨rfl, rfl, rfl⟩

/-- C5: in every invocation of _process_events the claim-and-dispatch
loop executes at most 20 iterations, and the number of iterations is
exactly one more than the index of the first iteration whose claim comes
back empty or whose dispatch fails, or 20 when no such iteration occurs
among the first 20. -/
theorem C5_process_events_bounded_and_early_stop :
    ∀ (claims : Nat → Option EventM) (dispatch : EventM → Bool),
      process_events_iterations claims dispatch =
        ((firstStopIndex claims dispatch).map (fun j => j + 1)).getD 20 ∧
      process_events_iterations claims dispatch ≤ 20 := by
  intro claims dispatch
  constructor
  · have h := processEventsLoop_eq_find claims dispatch 20 0
    simpa [process_events_iterations, firstStopIndex] using h
  · exact processEventsLoop_le claims dispatch 20 0

/-- C6, counterexample: a well-formed confirm payload whose integer id
has no history row is not logged and dropped. The handler replaces the
ephemeral message with the confirmation text and then hands the missing
lookup result (None) to _process_event, which raises AttributeError, so
the claim fails for the enumerated case of an integer id with no
history row. -/
theorem C6_counterexample :
    handle_proactive_prompt "xoxb-bot-token" c6Processor c6NoHist
        c6Validate c6Body =
      (Except.error PyErr.attributeError,
       [Act.ack, Act.dbSelectHist 42, Act.respondConfirm]) ∧
    ((handle_proactive_prompt "xoxb-bot-token" c6Processor c6NoHist
        c6Validate c6Body).2.contains Act.logError) = false ∧
    ((handle_proactive_prompt "xoxb-bot-token" c6Processor c6NoHist
        c6Validate c6Body).2.contains Act.respondConfirm) = true := by
  exact ⟨rfl, rfl, rfl⟩

/-- C6, amended: for every confirm-path payload with a missing or
non-singleton actions array, or with a missing value, or with a value
that fails integer parsing, handle_proactive_prompt acknowledges, logs
the problem and drops the payload, performing no queue operation and
never reaching _process_event; the missing-history-row case is not
dropped. -/
theorem C6_malformed_confirm_dropped :
    ∀ (tok : String) (processor : Option EventM → Except PyErr Unit)
      (fetchHist : Int → Option Row) (validate : Row → Option EventM)
      (body : ABody),
      malformedConfirmPayload body = true →
      handle_proactive_prompt tok processor fetchHist validate body =
        (Except.ok (), [Act.ack, Act.logError]) := by
  intro tok processor fetchHist validate body h
  obtain ⟨acts⟩ := body
  cases acts with
  | none => rfl
  | some l =>
    cases l with
    | nil => rfl
    | cons a t =>
      cases t with
      | cons b r => rfl
      | nil =>
        simp only [malformedConfirmPayload] at h
        by_cases haid :
            a.action_id.getD REJECT_PROACTIVE_PROMPT = REJECT_PROACTIVE_PROMPT
        · rw [if_pos haid] at h
          exact absurd h (by simp)
        · rw [if_neg haid] at h
          simp only [handle_proactive_prompt]
          rw [if_neg haid]
          cases hv : a.value with
          | none => rfl
          | some v =>
            rw [hv] at h
            have hpi : pyInt v = none := by
              simpa using h
            simp [hpi]

/-- Witness for C6 at a concrete malformed payload (missing actions
array). -/
theorem C6_witness :
    handle_proactive_prompt "xoxb-bot-token" c6Processor c6NoHist
        c6Validate ⟨none⟩ = (Except.ok (), [Act.ack, Act.logError]) :=
  C6_malformed_confirm_dropped "xoxb-bot-token" c6Processor c6NoHist
    c6Validate ⟨none⟩ rfl

/-- C7: the claim says the constructor accepts a configuration only when
min_jitter < max_jitter and worker_sleep_seconds + min_jitter > 0, so
every computed worker timeout is strictly positive. The source instead
asserts worker_sleep_seconds - worker_min_jitter_seconds > 0, so the
configuration sleep=10, min_jitter=-20, max_jitter=30 passes all three
asserts even though the claim requires it to be rejected, and the jitter
draw -20 (inside the configured window) makes _calc_worker_sleep return
-10, a non-positive timeout. -/
theorem C7_accepted_config_with_nonpositive_timeout :
    harnessInitAccepts 10 (-20) 30 = true ∧
    calc_worker_sleep 10 (-20) = -10 ∧
    decide (0 < calc_worker_sleep 10 (-20)) = false ∧
    decide ((-20 : Int) ≤ -20 ∧ (-20 : Int) ≤ 30) = true ∧
    decide (0 < (10 : Int) + (-20)) = false := by
  exact ⟨rfl, rfl, rfl, rfl, rfl⟩

/-- C8, counterexample: with the default worker_sleep_seconds = 60 and
pool size 61, random.sample must draw 60 pairwise-distinct values from
range(1, 60), which has only 59 elements, so no valid sample exists and
the call raises ValueError instead of producing the worker argument
list the claim promises for every pool size. -/
theorem C8_counterexample :
    (∃ s : List Int, sampleOk (pyRange 1 60) 60 s) ↔ False := by
  constructor
  · rintro ⟨s, hlen, hnd, hsub⟩
    have hcard : s.toFinset.card = 60 := by
      rw [List.toFinset_card_of_nodup hnd, hlen]
    have h1 : s.toFinset.card ≤ (pyRange 1 60).toFinset.card := by
      refine Finset.card_le_card ?_
      intro x hx
      exact List.mem_toFinset.mpr (hsub x (List.mem_toFinset.mp hx))
    have h2 : (pyRange 1 60).toFinset.card ≤ (pyRange 1 60).length :=
      List.toFinset_card_le _
    have h3 : (pyRange 1 60).length = 59 := by rfl
    omega
  · exact False.elim

/-- C8, amended: for every pool size N with 1 ≤ N ≤ worker_sleep_seconds
(so that random.sample succeeds), _worker_args produces exactly N pairs
whose worker ids are 0..N-1, worker 0 has initial sleep 0, and workers
1..N-1 receive pairwise-distinct offsets drawn from range(1,
worker_sleep_seconds), hence strictly between 0 and
worker_sleep_seconds; for larger N random.sample raises ValueError. -/
theorem C8_staggered_worker_args :
    ∀ (sleep : Int) (n : Nat) (sampled : List Int),
      1 ≤ n → sampleOk (pyRange 1 sleep) (n - 1) sampled →
      (worker_args sampled).length = n ∧
      (worker_args sampled).map Prod.fst = List.range n ∧
      (worker_args sampled).head? = some (0, 0) ∧
      sampled.Nodup ∧
      ∀ x ∈ sampled, 0 < x ∧ x < sleep := by
  intro sleep n sampled hn hs
  obtain ⟨hlen, hnd, hsub⟩ := hs
  have hlen2 : (worker_args sampled).length = n := by
    simp only [worker_args, List.enum_length, List.length_cons, hlen]
    omega
  refine ⟨hlen2, ?_, ?_, hnd, ?_⟩
  · rw [worker_args, List.enum_map_fst]
    simp only [List.length_cons, hlen]
    congr 1
    omega
  · simp [worker_args, List.enum_cons]
  · intro x hx
    have := (mem_pyRange 1 sleep x).mp (hsub x hx)
    omega

/-- Witness for C8 at worker_sleep_seconds = 60, pool size 5, and the
concrete sample [1, 2, 3, 4]. -/
theorem C8_witness :
    (worker_args [1, 2, 3, 4]).length = 5 :=
  (C8_staggered_worker_args 60 5 [1, 2, 3, 4] (by decide) (by decide)).1

/-- C9: for every slash command whose user_id is absent from the
admin_users table, handle_command returns the fixed refusal string,
never dispatches into the command tree, and issues no database mutation
(the admin gate itself is a read-only EXISTS query). -/
theorem C9_slash_commands_admin_gated :
    ∀ (admins : List String) (routerResponse : Option String → String)
      (routerOps : Option String → List Act) (cmd : SlackCommandM),
      (cmd.user_id = none ∨ ∃ u, cmd.user_id = some u ∧ u ∉ admins) →
      handle_command admins routerResponse routerOps cmd =
        (ADMIN_ONLY_MSG, [Act.dbSelectAdmin]) ∧
      ((handle_command admins routerResponse routerOps cmd).2.contains
        Act.routerDispatch) = false ∧
      (handle_command admins routerResponse routerOps cmd).2.filter
        isDbMutation = [] := by
  intro admins routerResponse routerOps cmd h
  have hadmin : user_is_admin admins cmd.user_id = false := by
    rcases h with h | ⟨u, hu, hmem⟩
    · simp [user_is_admin, h]
    · simp [user_is_admin, hu, hmem]
  have heq : handle_command admins routerResponse routerOps cmd =
      (ADMIN_ONLY_MSG, [Act.dbSelectAdmin]) := by
    simp [handle_command, hadmin]
  refine ⟨heq, ?_, ?_⟩ <;> rw [heq] <;> rfl

/-- Witness for C9 at a concrete non-admin user. -/
theorem C9_witness :
    handle_command ["U1"] c9Response c9Ops c9Command =
      (ADMIN_ONLY_MSG, [Act.dbSelectAdmin]) :=
  (C9_slash_commands_admin_gated ["U1"] c9Response c9Ops c9Command
    (Or.inr ⟨"U2", rfl, by decide⟩)).1

/-- C10: get_event_hist is total over its error cases: a missing history
row and a row that fails Event validation both return None (the latter
after logging) instead of raising, and no execution of get_event_hist
issues a database mutation. -/
theorem C10_get_event_hist_total :
    ∀ (eventId : Int) (fetch : Option Row) (validate : Row → Option EventM),
      (fetch = none →
        get_event_hist eventId fetch validate =
          (none, [Act.dbSelectHist eventId])) ∧
      (∀ row, fetch = some row → validate row = none →
        get_event_hist eventId fetch validate =
          (none, [Act.dbSelectHist eventId, Act.logError])) ∧
      (get_event_hist eventId fetch validate).2.filter isDbMutation = [] := by
  intro eventId fetch validate
  refine ⟨?_, ?_, ?_⟩
  · rintro rfl
    rfl
  · rintro row rfl hv
    simp [get_event_hist, hv]
  · cases fetch with
    | none => rfl
    | some row =>
      cases hv : validate row with
      | none => simp [get_event_hist, hv, isDbMutation]
      | some e => simp [get_event_hist, hv, isDbMutation]

/-- Witness for C10 at a concrete missing history row. -/
theorem C10_witness :
    get_event_hist 7 none c10Validate = (none, [Act.dbSelectHist 7]) :=
  (C10_get_event_hist_total 7 none c10Validate).1 rfl
